import Mathlib

/-!
Shallow embedding of the fall-detection Flask service (src/flask/app.py).

The service ingests fall reports over POST /fall_event, optionally sends an
SMS alert through Twilio, appends every event to a CSV file, additionally
inserts it into MongoDB when that backend connected at startup, and serves
the event history through GET /events and health data through GET /status.

External effects (Twilio, MongoDB, the CSV file) are modelled by an
environment record that fixes the outcome of each external call; the
handlers are pure functions of that environment, the request data and the
pre-existing stored rows.  An uncaught Python exception is modelled as an
`Except.error` result.
-/

namespace FallDetection

/-- A Python value as it may appear in a JSON request field: the code never
validates field types, so any shape can reach `log_event`. -/
inductive PyVal where
  | bool (b : Bool)
  | str (s : String)
  | int (n : Int)
  | none
deriving DecidableEq, Repr

/-- Python truthiness, as used by the bare `if detection` test in
`log_event`. -/
def truthy : PyVal → Bool
  | .bool b => b
  | .str s => !(s == "")
  | .int n => !(n == 0)
  | .none => false

/-- How Python `str()` renders a value, as the `csv` module does when the
row is written. -/
def pyStr : PyVal → String
  | .bool true => "True"
  | .bool false => "False"
  | .str s => s
  | .int n => toString n
  | .none => "None"

/-- The comparison `alert_type == "real alert"` from `log_event`: in Python
an equality test between a non-string value and a string is `False`. -/
def isRealAlert : PyVal → Bool
  | .str s => s == "real alert"
  | _ => false

/-- Outcomes of the external dependencies for one request, fixed at call
time: whether each client initialised at startup and whether each external
call would succeed if made. -/
structure Env where
  twilioAvailable : Bool
  mongoAvailable : Bool
  smsCreateOk : Bool
  csvAppendOk : Bool
  csvReadOk : Bool
  mongoInsertOk : Bool
  mongoCountOk : Bool
  mongoFindOk : Bool
deriving DecidableEq, Repr

/-- `send_sms_alert` (app.py:77): returns `False` immediately when the
Twilio client failed to initialise; otherwise calls the provider and maps
any provider exception to `False`. -/
def send_sms_alert (env : Env) : Bool :=
  if !env.twilioAvailable then false
  else env.smsCreateOk

/-- The document `log_event` inserts into MongoDB (app.py:112). -/
structure MongoDoc where
  timestamp : Nat
  timestamp_str : String
  device_id : PyVal
  detection : PyVal
  alert_type : PyVal
  sms_sent : String
deriving DecidableEq, Repr

/-- Everything observable about one `log_event` call: whether the SMS
gateway was called, whether the Twilio provider was actually contacted,
the CSV row appended (if the file write succeeded), the MongoDB document
inserted (if any), and the returned `sms_sent` string or the uncaught
exception. -/
structure LogOutcome where
  smsAttempted : Bool
  providerInvoked : Bool
  csvAppended : Option (List String)
  mongoInserted : Option MongoDoc
  result : Except Unit String
deriving Repr

/-- `True` rendered as the Bool result of `Except` success. -/
def exceptOk {ε α : Type} : Except ε α → Bool
  | .ok _ => true
  | .error _ => false

/-- `log_event` (app.py:95-125).  Sends the SMS first when
`detection and alert_type == "real alert"`, then appends the CSV row
(not inside any `try`, so a file error propagates), then inserts into
MongoDB inside a `try/except` when that backend is available. -/
def log_event (env : Env) (now : Nat) (nowStr : String)
    (detection alert_type device_id : PyVal) : LogOutcome :=
  let notify := truthy detection && isRealAlert alert_type
  let sms_sent :=
    if notify then (if send_sms_alert env then "Yes" else "Failed") else "No"
  if env.csvAppendOk then
    { smsAttempted := notify
      providerInvoked := notify && env.twilioAvailable
      csvAppended :=
        some [nowStr, pyStr detection, pyStr alert_type, pyStr device_id, sms_sent]
      mongoInserted :=
        if env.mongoAvailable && env.mongoInsertOk then
          some { timestamp := now, timestamp_str := nowStr,
                 device_id := device_id, detection := detection,
                 alert_type := alert_type, sms_sent := sms_sent }
        else Option.none
      result := .ok sms_sent }
  else
    { smsAttempted := notify
      providerInvoked := notify && env.twilioAvailable
      csvAppended := Option.none
      mongoInserted := Option.none
      result := .error () }

/-- The JSON body of POST /fall_event, with each field optional: `data.get`
returns the hard-coded default when the key is absent. -/
structure Payload where
  detect : Option PyVal
  type : Option PyVal
  device_id : Option PyVal
deriving DecidableEq, Repr

/-- The JSON response of POST /fall_event together with its HTTP status. -/
structure HttpResponse where
  httpStatus : Nat
  status : String
  message : String
  sms_alert : Option String
deriving DecidableEq, Repr

/-- `fall_event` (app.py:328-350).  `body = none` models a request whose
JSON could not be read (`request.json` unusable), which raises inside the
handler and is caught by the boundary `except`, yielding a 500 error
response.  Otherwise the optional fields are defaulted and `log_event`
runs; an exception escaping `log_event` is also caught at the boundary. -/
def fall_event (env : Env) (now : Nat) (nowStr : String)
    (body : Option Payload) : HttpResponse × Option LogOutcome :=
  match body with
  | Option.none =>
      ({ httpStatus := 500, status := "error", message := "exception",
         sms_alert := Option.none }, Option.none)
  | some data =>
      let detected := data.detect.getD (.bool false)
      let alert_type := data.type.getD (.str "unknown")
      let device_id := data.device_id.getD (.str "unknown")
      let out := log_event env now nowStr detected alert_type device_id
      match out.result with
      | .ok sms_status =>
          ({ httpStatus := 200, status := "success",
             message := "Event logged successfully",
             sms_alert := some sms_status }, some out)
      | .error _ =>
          ({ httpStatus := 500, status := "error", message := "exception",
             sms_alert := Option.none }, some out)

/-- The per-row normalisation inside `get_events_from_csv`
(app.py:266-270): append one `'unknown'` when the row has fewer than four
fields, then one `'No'` when it still has fewer than five. -/
def normalizeRow (event : List String) : List String :=
  let e1 := if event.length < 4 then event ++ ["unknown"] else event
  if e1.length < 5 then e1 ++ ["No"] else e1

/-- `get_events_from_csv` (app.py:255-271): read all data rows (header
skipped), reverse so the newest comes first, truncate to 20, normalise
each remaining row. -/
def get_events_from_csv (fileExists : Bool) (rows : List (List String)) :
    List (List String) :=
  if fileExists then (rows.reverse.take 20).map normalizeRow else []

/-- The MongoDB query of the `/events` route (app.py:282):
`find().sort('timestamp', -1).limit(20)`, i.e. sort by timestamp
descending and keep at most 20 documents. -/
def mongoFindSortedLimit20 (docs : List MongoDoc) : List MongoDoc :=
  (docs.insertionSort (fun a b => b.timestamp ≤ a.timestamp)).take 20

/-- The body served by GET /events: a list built from MongoDB documents,
a list built from CSV rows, or (unreachable in this model) an error. -/
inductive EventsResult where
  | mongoList (xs : List MongoDoc)
  | csvList (xs : List (List String))
  | errorResp (msg : String)
deriving Repr

/-- Number of records in an `/events` response body. -/
def EventsResult.count : EventsResult → Nat
  | .mongoList xs => xs.length
  | .csvList xs => xs.length
  | .errorResp _ => 0

/-- Whether an `/events` response is the 500 error shape. -/
def EventsResult.isError : EventsResult → Bool
  | .errorResp _ => true
  | _ => false

/-- The records of an `/events` response are strictly newest-first:
MongoDB documents by their stored instant, CSV rows by an interpretation
`key` of the row. -/
def EventsResult.newestFirst (key : List String → Nat) :
    EventsResult → Prop
  | .mongoList xs => xs.Pairwise (fun a b => b.timestamp < a.timestamp)
  | .csvList xs => xs.Pairwise (fun a b => key b < key a)
  | .errorResp _ => True

/-- Running `get_events_from_csv` including its file I/O outcome: the
function opens the CSV only when it exists (app.py:257-258), and an
`open`/`next(reader)` exception there is not caught inside the helper, so
it propagates to the caller.  On success the returned rows are those of
`get_events_from_csv`. -/
def get_events_from_csv_run (env : Env) (fileExists : Bool)
    (rows : List (List String)) : Except Unit (List (List String)) :=
  if fileExists && !env.csvReadOk then .error ()
  else .ok (get_events_from_csv fileExists rows)

/-- The `/events` route (app.py:273-326): query MongoDB when it is
available, fall back to the CSV on a MongoDB read error, and use the CSV
directly when MongoDB never connected.  An exception raised by the CSV
read itself is caught only by the outer boundary `try` (app.py:325-326),
which answers with the 500 error shape. -/
def events_route (env : Env) (docs : List MongoDoc) (fileExists : Bool)
    (rows : List (List String)) : EventsResult :=
  if env.mongoAvailable then
    if env.mongoFindOk then .mongoList (mongoFindSortedLimit20 docs)
    else
      match get_events_from_csv_run env fileExists rows with
      | .ok xs => .csvList xs
      | .error _ => .errorResp "error"
  else
    match get_events_from_csv_run env fileExists rows with
    | .ok xs => .csvList xs
    | .error _ => .errorResp "error"

/-- The configured timezone (app.py:30). -/
def TIMEZONE : String := "Asia/Kolkata"

/-- The JSON body served by GET /status (app.py:379-387). -/
structure StatusResponse where
  status : String
  time : Nat
  timezone : String
  records_count : Int
  database : String
  mongo_status : String
  twilio_status : String
deriving DecidableEq, Repr

/-- `api_status` (app.py:361-387).  `csvLines` is the total line count of
the CSV file (header included); the CSV fallback count is that minus one.
A MongoDB count error is swallowed by a bare `except` and falls back to
the CSV count. -/
def api_status (env : Env) (nowEpoch : Nat) (mongoCount : Nat)
    (fileExists : Bool) (csvLines : Nat) : StatusResponse :=
  let csvCount : Int := if fileExists then (csvLines : Int) - 1 else 0
  { status := "online"
    time := nowEpoch
    timezone := TIMEZONE
    records_count :=
      if env.mongoAvailable then
        if env.mongoCountOk then (mongoCount : Int) else csvCount
      else csvCount
    database := if env.mongoAvailable then "mongodb" else "csv"
    mongo_status := if env.mongoAvailable then "connected" else "disconnected"
    twilio_status := if env.twilioAvailable then "connected" else "disconnected" }

/-- Running `api_status` including the file I/O outcome of its record
count (app.py:364-377): a MongoDB count failure is swallowed by the bare
`except` and falls back to counting CSV lines, but that CSV read — in the
`except` block and in the MongoDB-unavailable branch alike — is itself
unprotected, so when the count needs the CSV and the file read raises,
the exception escapes the handler.  The CSV is only opened when it
exists, and never touched when the MongoDB count succeeds. -/
def api_status_run (env : Env) (nowEpoch mongoCount : Nat)
    (fileExists : Bool) (csvLines : Nat) : Except Unit StatusResponse :=
  if env.mongoAvailable && env.mongoCountOk then
    .ok (api_status env nowEpoch mongoCount fileExists csvLines)
  else if fileExists && !env.csvReadOk then .error ()
  else .ok (api_status env nowEpoch mongoCount fileExists csvLines)

/-- An environment in which every dependency initialised and every
external call succeeds. -/
def envAllOk : Env :=
  { twilioAvailable := true, mongoAvailable := true, smsCreateOk := true,
    csvAppendOk := true, csvReadOk := true, mongoInsertOk := true,
    mongoCountOk := true, mongoFindOk := true }

/-- An environment in which everything works except the CSV append
itself. -/
def envCsvFail : Env :=
  { envAllOk with csvAppendOk := false }

/-- An environment in which the Twilio client failed to initialise and
MongoDB never connected. -/
def envNoTwilio : Env :=
  { envAllOk with twilioAvailable := false, mongoAvailable := false }

/-- The `sms_sent` string `log_event` computes for a report, as a named
subterm for use in statements. -/
def smsSentOf (env : Env) (detection alert_type : PyVal) : String :=
  if truthy detection && isRealAlert alert_type then
    (if send_sms_alert env then "Yes" else "Failed")
  else "No"

/-- A concrete timestamp interpretation of a CSV row, used to witness the
ordering theorem: the length of the first field. -/
def headLenKey (r : List String) : Nat := (r.headD "").length

/-- Closed form of `log_event` when the CSV append succeeds. -/
theorem log_event_eq (env : Env) (now : Nat) (ts : String) (d a i : PyVal)
    (h : env.csvAppendOk = true) :
    log_event env now ts d a i =
      { smsAttempted := truthy d && isRealAlert a
        providerInvoked := (truthy d && isRealAlert a) && env.twilioAvailable
        csvAppended := some [ts, pyStr d, pyStr a, pyStr i, smsSentOf env d a]
        mongoInserted :=
          if env.mongoAvailable && env.mongoInsertOk then
            some { timestamp := now, timestamp_str := ts, device_id := i,
                   detection := d, alert_type := a,
                   sms_sent := smsSentOf env d a }
          else Option.none
        result := .ok (smsSentOf env d a) } := by
  simp [log_event, smsSentOf, h]

/-- Closed form of `fall_event` on a readable JSON body when the CSV
append succeeds. -/
theorem fall_event_ok (env : Env) (now : Nat) (ts : String) (body : Payload)
    (h : env.csvAppendOk = true) :
    fall_event env now ts (some body) =
      ({ httpStatus := 200, status := "success",
         message := "Event logged successfully",
         sms_alert := some (smsSentOf env (body.detect.getD (.bool false))
            (body.type.getD (.str "unknown"))) },
       some (log_event env now ts (body.detect.getD (.bool false))
          (body.type.getD (.str "unknown"))
          (body.device_id.getD (.str "unknown")))) := by
  simp only [fall_event]
  rw [log_event_eq env now ts _ _ _ h]

/-- C1: a notification attempt is made iff `detect == true` and
`type == "real alert"` (exact string match); when attempted, the persisted
`sms_sent` is `"Yes"` when the gateway returned true and `"Failed"` when it
returned false; otherwise (including `"false alert"` with `detect` true)
`sms_sent` is `"No"` and the gateway is never invoked. -/
theorem notify_iff_real_alert (env : Env) (now : Nat) (ts : String)
    (detect : Bool) (alert_type device_id : PyVal)
    (h : env.csvAppendOk = true) :
    (log_event env now ts (.bool detect) alert_type device_id).smsAttempted
        = (detect && isRealAlert alert_type) ∧
    ((detect && isRealAlert alert_type) = true →
      (log_event env now ts (.bool detect) alert_type device_id).csvAppended
        = some [ts, "True", pyStr alert_type, pyStr device_id,
            if send_sms_alert env then "Yes" else "Failed"]) ∧
    ((detect && isRealAlert alert_type) = false →
      (log_event env now ts (.bool detect) alert_type device_id).smsAttempted
          = false ∧
      (log_event env now ts (.bool detect) alert_type device_id).csvAppended
        = some [ts, pyStr (.bool detect), pyStr alert_type, pyStr device_id,
            "No"]) := by
  rw [log_event_eq env now ts _ _ _ h]
  refine ⟨by simp [truthy], ?_, ?_⟩
  · intro hd
    have hc : (truthy (PyVal.bool detect) && isRealAlert alert_type) = true := by
      simpa [truthy] using hd
    obtain ⟨hd1, hd2⟩ : detect = true ∧ isRealAlert alert_type = true := by
      simpa using hd
    subst hd1
    simp [smsSentOf, hc, pyStr]
  · intro hd
    exact ⟨by simp [truthy, hd], by simp [smsSentOf, truthy, hd]⟩

/-- Witness for C1 at a concrete real-alert report. -/
theorem notify_iff_real_alert_witness :
    (log_event envAllOk 0 "t" (.bool true) (.str "real alert")
        (.str "esp-7")).smsAttempted = true ∧
    (log_event envAllOk 0 "t" (.bool true) (.str "real alert")
        (.str "esp-7")).csvAppended
      = some ["t", "True", "real alert", "esp-7",
          if send_sms_alert envAllOk then "Yes" else "Failed"] := by
  have h := notify_iff_real_alert envAllOk 0 "t" true (.str "real alert")
    (.str "esp-7") rfl
  exact ⟨h.1.trans (by decide), h.2.1 (by decide)⟩

/-- C2: for every appended event the CSV (fallback) write happens
unconditionally whatever the MongoDB health knobs say; the append returns
normally, and POST /fall_event answers 200 success, for every environment
in which the CSV append itself succeeds — in particular when the MongoDB
insert fails. -/
theorem fallback_write_unconditional (env : Env) (now : Nat) (ts : String)
    (d a i : PyVal) (body : Payload) (h : env.csvAppendOk = true) :
    (log_event env now ts d a i).csvAppended
      = some [ts, pyStr d, pyStr a, pyStr i, smsSentOf env d a] ∧
    exceptOk (log_event env now ts d a i).result = true ∧
    (fall_event env now ts (some body)).1.httpStatus = 200 ∧
    (fall_event env now ts (some body)).1.status = "success" := by
  rw [log_event_eq env now ts _ _ _ h, fall_event_ok env now ts body h]
  exact ⟨rfl, rfl, rfl, rfl⟩

/-- Witness for C2 in an environment where the MongoDB insert fails. -/
theorem fallback_write_unconditional_witness :
    (log_event { envAllOk with mongoInsertOk := false } 0 "t" (.bool true)
        (.str "real alert") (.str "esp-7")).csvAppended
      = some ["t", "True", "real alert", "esp-7",
          smsSentOf { envAllOk with mongoInsertOk := false } (.bool true)
            (.str "real alert")] ∧
    (fall_event { envAllOk with mongoInsertOk := false } 0 "t"
        (some { detect := some (.bool true), type := some (.str "real alert"),
                device_id := some (.str "esp-7") })).1.status = "success" := by
  have h := fallback_write_unconditional { envAllOk with mongoInsertOk := false }
    0 "t" (.bool true) (.str "real alert") (.str "esp-7")
    { detect := some (.bool true), type := some (.str "real alert"),
      device_id := some (.str "esp-7") } rfl
  exact ⟨h.1, h.2.2.2⟩

/-- C3 counterexample: when the CSV append itself raises, `log_event`
propagates the exception to its caller — the store is not exception-free
for every write. -/
theorem store_append_raises_on_csv_failure :
    (log_event envCsvFail 0 "2024-01-01 00:00:00 IST" (.bool false)
        (.str "unknown") (.str "unknown")).result = .error () := rfl

/-- C3 amended: a primary-backend (MongoDB) failure never escapes a store
operation — each of the three Bool equations characterises exactly when
the operation fails, and none of the right-hand sides mentions a MongoDB
knob alone.  The append raises precisely when the fallback CSV write
itself fails; the `/events` listing produces its 500 error shape
precisely when the fallback CSV read is needed (MongoDB unavailable or
its query failing) and that file read itself raises; the `/status` count
raises precisely when the CSV line count is needed (MongoDB unavailable
or its count failing) and that file read itself raises. -/
theorem store_raises_only_on_fallback_failure (env : Env) (now : Nat)
    (ts : String) (d a i : PyVal) (docs : List MongoDoc) (fe : Bool)
    (rows : List (List String)) (nowEpoch mongoCount csvLines : Nat) :
    exceptOk (log_event env now ts d a i).result = env.csvAppendOk ∧
    (events_route env docs fe rows).isError
      = ((!env.mongoAvailable || !env.mongoFindOk)
          && (fe && !env.csvReadOk)) ∧
    exceptOk (api_status_run env nowEpoch mongoCount fe csvLines)
      = !((!env.mongoAvailable || !env.mongoCountOk)
          && (fe && !env.csvReadOk)) := by
  refine ⟨?_, ?_, ?_⟩
  · cases hc : env.csvAppendOk <;> simp [log_event, hc, exceptOk]
  · cases hma : env.mongoAvailable <;> cases hmf : env.mongoFindOk <;>
      cases hfe : fe <;> cases hcr : env.csvReadOk <;>
      simp [events_route, get_events_from_csv_run, hma, hmf, hfe, hcr,
        EventsResult.isError]
  · cases hma : env.mongoAvailable <;> cases hmc : env.mongoCountOk <;>
      cases hfe : fe <;> cases hcr : env.csvReadOk <;>
      simp [api_status_run, hma, hmc, hfe, hcr, exceptOk]

/-- C4 counterexample: with the Twilio gateway unavailable, a real-alert
report is persisted with `sms_sent = "Failed"`, not `"No"` as the claim
states. -/
theorem sms_failed_when_gateway_unavailable :
    (log_event envNoTwilio 0 "t" (.bool true) (.str "real alert")
        (.str "esp-7")).csvAppended
      = some ["t", "True", "real alert", "esp-7", "Failed"] ∧
    (log_event envNoTwilio 0 "t" (.bool true) (.str "real alert")
        (.str "esp-7")).result = .ok "Failed" ∧
    ("Failed" : String) ≠ "No" := ⟨rfl, rfl, by decide⟩

/-- C4 amended: when the gateway failed to initialise, a real-alert report
never contacts the provider, `send_sms_alert` returns false, and the
persisted `sms_sent` is `"Failed"`; `"No"` is used exactly when no
notification attempt is made because of the classification. -/
theorem gateway_unavailable_yields_failed (env : Env) (now : Nat)
    (ts : String) (d a i : PyVal) (h1 : env.twilioAvailable = false)
    (h2 : env.csvAppendOk = true)
    (h3 : (truthy d && isRealAlert a) = true) :
    (log_event env now ts d a i).providerInvoked = false ∧
    send_sms_alert env = false ∧
    (log_event env now ts d a i).result = .ok "Failed" ∧
    (log_event env now ts d a i).csvAppended
      = some [ts, pyStr d, pyStr a, pyStr i, "Failed"] := by
  rw [log_event_eq env now ts _ _ _ h2]
  simp [smsSentOf, send_sms_alert, h1, h3]

/-- Witness for C4 amended at a concrete real-alert report with the
gateway down. -/
theorem gateway_unavailable_yields_failed_witness :
    (log_event envNoTwilio 0 "t" (.bool true) (.str "real alert")
        (.str "esp-7")).providerInvoked = false ∧
    (log_event envNoTwilio 0 "t" (.bool true) (.str "real alert")
        (.str "esp-7")).result = .ok "Failed" := by
  have h := gateway_unavailable_yields_failed envNoTwilio 0 "t" (.bool true)
    (.str "real alert") (.str "esp-7") rfl rfl (by decide)
  exact ⟨h.1, h.2.2.1⟩

/-- C5: a readable report body is never rejected whatever its fields hold;
missing fields are defaulted (`detect` to false, `type` and `device_id` to
`"unknown"`) and the event is still logged with those defaults. -/
theorem malformed_fields_never_rejected (env : Env) (now : Nat)
    (ts : String) (body : Payload) (h : env.csvAppendOk = true) :
    (fall_event env now ts (some body)).1.status = "success" ∧
    (fall_event env now ts (some body)).1.httpStatus = 200 ∧
    (body.detect = Option.none → body.type = Option.none →
      body.device_id = Option.none →
      (fall_event env now ts (some body)).2
        = some (log_event env now ts (.bool false) (.str "unknown")
            (.str "unknown")) ∧
      (log_event env now ts (.bool false) (.str "unknown")
          (.str "unknown")).csvAppended
        = some [ts, "False", "unknown", "unknown", "No"]) := by
  rw [fall_event_ok env now ts body h]
  refine ⟨rfl, rfl, ?_⟩
  intro h1 h2 h3
  rw [h1, h2, h3]
  refine ⟨rfl, ?_⟩
  rw [log_event_eq env now ts _ _ _ h]
  simp [smsSentOf, truthy, pyStr]

/-- Witness for C5 at the empty report body. -/
theorem malformed_fields_never_rejected_witness :
    (fall_event envAllOk 0 "t"
        (some { detect := Option.none, type := Option.none,
                device_id := Option.none })).1.status = "success" ∧
    (log_event envAllOk 0 "t" (.bool false) (.str "unknown")
        (.str "unknown")).csvAppended
      = some ["t", "False", "unknown", "unknown", "No"] := by
  have h := malformed_fields_never_rejected envAllOk 0 "t"
    { detect := Option.none, type := Option.none, device_id := Option.none }
    rfl
  exact ⟨h.1, (h.2.2 rfl rfl rfl).2⟩

/-- C6 counterexample: a two-field row gains only one `'unknown'` and one
`'No'`, so the normalized record has four fields, not five, and the
`'unknown'` default lands in the `alert_type` position instead of
`device_id`. -/
theorem short_row_normalizes_to_four_fields :
    get_events_from_csv true [["t", "True"]]
      = [["t", "True", "unknown", "No"]] ∧
    (get_events_from_csv true [["t", "True"]]).map List.length = [4] :=
  ⟨rfl, rfl⟩

/-- C6 amended: a row carrying at least the three leading fields
(timestamp, detection, alert_type) and at most five fields normalizes to
exactly five fields, with `'unknown'` appended for a missing `device_id`
and `'No'` for a missing `sms_sent`; rows shorter than three gain at most
those two defaults and stay shorter than five fields. -/
theorem legacy_rows_normalize (r : List String) (h3 : 3 ≤ r.length)
    (h5 : r.length ≤ 5) :
    (normalizeRow r).length = 5 ∧
    (r.length = 3 → normalizeRow r = r ++ ["unknown", "No"]) ∧
    (r.length = 4 → normalizeRow r = r ++ ["No"]) ∧
    (r.length = 5 → normalizeRow r = r) := by
  have he : r.length = 3 ∨ r.length = 4 ∨ r.length = 5 := by omega
  rcases he with e | e | e <;> simp [normalizeRow, e]

/-- Witness for C6 amended: a legacy three-field row. -/
theorem legacy_rows_normalize_witness :
    (normalizeRow ["t", "True", "real alert"]).length = 5 ∧
    normalizeRow ["t", "True", "real alert"]
      = ["t", "True", "real alert"] ++ ["unknown", "No"] := by
  have h := legacy_rows_normalize ["t", "True", "real alert"] (by decide)
    (by decide)
  exact ⟨h.1, h.2.1 (by decide)⟩

/-- C8: appending a report and reading the newest record back through the
CSV path yields exactly the appended row, whose fields match the submitted
`device_id`, `detect` (in its Python string rendering) and classification;
when a MongoDB document is written, its fields match the submission
exactly. -/
theorem append_then_read_roundtrip (env : Env) (now : Nat) (ts : String)
    (detect : Bool) (alert_type device_id : String)
    (rows : List (List String)) (h : env.csvAppendOk = true) :
    (log_event env now ts (.bool detect) (.str alert_type)
        (.str device_id)).csvAppended
      = some [ts, pyStr (.bool detect), alert_type, device_id,
          smsSentOf env (.bool detect) (.str alert_type)] ∧
    (∀ row,
      (log_event env now ts (.bool detect) (.str alert_type)
          (.str device_id)).csvAppended = some row →
      (get_events_from_csv true (rows ++ [row])).head? = some row ∧
      row.get? 3 = some device_id ∧
      row.get? 1 = some (pyStr (.bool detect)) ∧
      row.get? 2 = some alert_type) ∧
    (∀ doc,
      (log_event env now ts (.bool detect) (.str alert_type)
          (.str device_id)).mongoInserted = some doc →
      doc.device_id = .str device_id ∧ doc.detection = .bool detect ∧
      doc.alert_type = .str alert_type) := by
  rw [log_event_eq env now ts _ _ _ h]
  refine ⟨rfl, ?_, ?_⟩
  · intro row hrow
    obtain rfl : row = [ts, pyStr (.bool detect), alert_type, device_id,
        smsSentOf env (.bool detect) (.str alert_type)] := by
      simpa using hrow.symm
    refine ⟨?_, rfl, rfl, rfl⟩
    rw [get_events_from_csv, if_pos rfl, List.reverse_append]
    rw [show (20 : Nat) = 19 + 1 from rfl]
    simp [normalizeRow]
  · intro doc hdoc
    cases hc : env.mongoAvailable && env.mongoInsertOk <;> simp [hc] at hdoc
    obtain rfl := hdoc.symm
    exact ⟨rfl, rfl, rfl⟩

/-- Witness for C8: the appended row is the newest record read back. -/
theorem append_then_read_roundtrip_witness :
    (get_events_from_csv true
        ([["t0", "False", "unknown", "unknown", "No"]]
          ++ [["t", "True", "real alert", "esp-7", "Yes"]])).head?
      = some ["t", "True", "real alert", "esp-7", "Yes"] := by
  have h := append_then_read_roundtrip envAllOk 0 "t" true "real alert"
    "esp-7" [["t0", "False", "unknown", "unknown", "No"]] rfl
  exact (h.2.1 ["t", "True", "real alert", "esp-7", "Yes"] h.1).1

/-- C9 counterexample: the `/status` body reports the active backend as
`'mongodb'` (or `'csv'`), never as the literal `'primary'` or
`'fallback'` the claim names. -/
theorem status_database_value_counterexample :
    (api_status envAllOk 0 0 true 1).database = "mongodb" ∧
    ¬ ((api_status envAllOk 0 0 true 1).database = "primary" ∨
       (api_status envAllOk 0 0 true 1).database = "fallback") := by
  exact ⟨rfl, by decide⟩

/-- C9 amended: `/status` reports `status = "online"`, the epoch time and
timezone it was given, an integer records count, `database` equal to
`'mongodb'` when the primary store is available and `'csv'` otherwise, and
connection badges `mongo_status` and `twilio_status` that are always
`'connected'` or `'disconnected'`. -/
theorem api_status_shape (env : Env) (nowEpoch mongoCount : Nat)
    (fileExists : Bool) (csvLines : Nat) :
    (api_status env nowEpoch mongoCount fileExists csvLines).status
        = "online" ∧
    (api_status env nowEpoch mongoCount fileExists csvLines).time
        = nowEpoch ∧
    (api_status env nowEpoch mongoCount fileExists csvLines).timezone
        = TIMEZONE ∧
    (api_status env nowEpoch mongoCount fileExists csvLines).database
        = (if env.mongoAvailable then "mongodb" else "csv") ∧
    (api_status env nowEpoch mongoCount fileExists csvLines).mongo_status
        = (if env.mongoAvailable then "connected" else "disconnected") ∧
    (api_status env nowEpoch mongoCount fileExists csvLines).twilio_status
        = (if env.twilioAvailable then "connected" else "disconnected") :=
  ⟨rfl, rfl, rfl, rfl, rfl, rfl⟩

instance : IsTotal MongoDoc (fun a b => b.timestamp ≤ a.timestamp) :=
  ⟨fun a b => Nat.le_total b.timestamp a.timestamp⟩

instance : IsTrans MongoDoc (fun a b => b.timestamp ≤ a.timestamp) :=
  ⟨fun _ _ _ h1 h2 => Nat.le_trans h2 h1⟩

/-- The MongoDB read path of `/events` serves at most 20 documents,
strictly newest-first when the stored instants are pairwise distinct. -/
theorem mongo_list_le_20_and_desc (docs : List MongoDoc)
    (hdocs : docs.Pairwise (fun a b => a.timestamp ≠ b.timestamp)) :
    (mongoFindSortedLimit20 docs).length ≤ 20 ∧
    (mongoFindSortedLimit20 docs).Pairwise
      (fun a b => b.timestamp < a.timestamp) := by
  constructor
  · have := List.length_take 20
      (docs.insertionSort (fun a b => b.timestamp ≤ a.timestamp))
    rw [mongoFindSortedLimit20, this]
    exact Nat.min_le_left _ _
  · have hsorted : List.Pairwise
        (fun a b : MongoDoc => b.timestamp ≤ a.timestamp)
        (docs.insertionSort (fun a b => b.timestamp ≤ a.timestamp)) :=
      List.sorted_insertionSort _ docs
    have hne : List.Pairwise
        (fun a b : MongoDoc => a.timestamp ≠ b.timestamp)
        (docs.insertionSort (fun a b => b.timestamp ≤ a.timestamp)) :=
      ((List.perm_insertionSort _ docs).pairwise_iff
        (fun hab => hab.symm)).mpr hdocs
    have hlt := (hsorted.and hne).imp
      (fun h => lt_of_le_of_ne h.1 h.2.symm)
    exact hlt.sublist (List.take_sublist 20 _)

/-- The CSV read path of `/events` serves at most 20 rows, strictly
newest-first for any row-timestamp interpretation `key` that is strictly
increasing along the append-only file and preserved by normalisation. -/
theorem csv_list_le_20_and_desc (fe : Bool) (rows : List (List String))
    (key : List String → Nat)
    (hrows : rows.Pairwise (fun a b => key a < key b))
    (hkey : ∀ r ∈ rows, key (normalizeRow r) = key r) :
    (get_events_from_csv fe rows).length ≤ 20 ∧
    (get_events_from_csv fe rows).Pairwise
      (fun a b => key b < key a) := by
  cases fe with
  | false => simp [get_events_from_csv]
  | true =>
    rw [get_events_from_csv, if_pos rfl]
    constructor
    · rw [List.length_map, List.length_take]
      exact Nat.min_le_left _ _
    · rw [List.pairwise_map]
      have h1 : rows.reverse.Pairwise (fun a b => key b < key a) :=
        List.pairwise_reverse.mpr hrows
      have h2 : (rows.reverse.take 20).Pairwise
          (fun a b => key b < key a) :=
        h1.sublist (List.take_sublist 20 rows.reverse)
      refine h2.imp_of_mem ?_
      intro a b ha hb hab
      have ha2 : a ∈ rows :=
        List.mem_reverse.mp ((List.take_sublist 20 rows.reverse).subset ha)
      have hb2 : b ∈ rows :=
        List.mem_reverse.mp ((List.take_sublist 20 rows.reverse).subset hb)
      rw [hkey a ha2, hkey b hb2]
      exact hab

/-- When the CSV read succeeds, the rows it hands to `/events` are those
of `get_events_from_csv`, hence at most 20 and strictly newest-first. -/
theorem csv_run_ok_le_20_and_desc (env : Env) (fe : Bool)
    (rows : List (List String)) (key : List String → Nat)
    (xs : List (List String))
    (hrows : rows.Pairwise (fun a b => key a < key b))
    (hkey : ∀ r ∈ rows, key (normalizeRow r) = key r)
    (hrun : get_events_from_csv_run env fe rows = .ok xs) :
    xs.length ≤ 20 ∧ xs.Pairwise (fun a b => key b < key a) := by
  have hc := csv_list_le_20_and_desc fe rows key hrows hkey
  have hx : xs = get_events_from_csv fe rows := by
    simp only [get_events_from_csv_run] at hrun
    by_cases hb : (fe && !env.csvReadOk) = true
    · rw [if_pos hb] at hrun
      simp at hrun
    · rw [if_neg hb] at hrun
      simpa using hrun.symm
  rw [hx]
  exact hc

/-- C7: `/events` always serves at most 20 records, strictly newest-first
by timestamp, on both read paths: MongoDB (sorted descending, limit 20,
assuming pairwise-distinct stored instants) and the CSV fallback (read
fully, reversed, truncated to 20, for any timestamp interpretation of the
rows that increases along the append-only file and is unaffected by
row normalisation). -/
theorem events_limit_and_newest_first (env : Env) (docs : List MongoDoc)
    (fe : Bool) (rows : List (List String)) (key : List String → Nat)
    (hdocs : docs.Pairwise (fun a b => a.timestamp ≠ b.timestamp))
    (hrows : rows.Pairwise (fun a b => key a < key b))
    (hkey : ∀ r ∈ rows, key (normalizeRow r) = key r) :
    (events_route env docs fe rows).count ≤ 20 ∧
    (events_route env docs fe rows).newestFirst key := by
  have hm := mongo_list_le_20_and_desc docs hdocs
  cases hma : env.mongoAvailable with
  | false =>
    cases hrun : get_events_from_csv_run env fe rows with
    | ok xs =>
      have h := csv_run_ok_le_20_and_desc env fe rows key xs hrows hkey hrun
      simpa [events_route, hma, hrun, EventsResult.count,
        EventsResult.newestFirst] using h
    | error e =>
      simp [events_route, hma, hrun, EventsResult.count,
        EventsResult.newestFirst]
  | true =>
    cases hmf : env.mongoFindOk with
    | false =>
      cases hrun : get_events_from_csv_run env fe rows with
      | ok xs =>
        have h := csv_run_ok_le_20_and_desc env fe rows key xs hrows hkey hrun
        simpa [events_route, hma, hmf, hrun, EventsResult.count,
          EventsResult.newestFirst] using h
      | error e =>
        simp [events_route, hma, hmf, hrun, EventsResult.count,
          EventsResult.newestFirst]
    | true =>
      simpa [events_route, hma, hmf, EventsResult.count,
        EventsResult.newestFirst] using hm

/-- Witness for C7 on the CSV path with two concrete rows whose
first-field lengths increase in file order. -/
theorem events_limit_and_newest_first_witness :
    (events_route envNoTwilio [] true
      [["a", "True", "real alert", "esp-7", "Yes"],
       ["ab", "False", "false alert", "esp-8", "No"]]).count ≤ 20 ∧
    (events_route envNoTwilio [] true
      [["a", "True", "real alert", "esp-7", "Yes"],
       ["ab", "False", "false alert", "esp-8", "No"]]).newestFirst
      headLenKey := by
  exact events_limit_and_newest_first envNoTwilio [] true
    [["a", "True", "real alert", "esp-7", "Yes"],
     ["ab", "False", "false alert", "esp-8", "No"]] headLenKey
    (by decide) (by decide) (by decide)

/-- C10: the `sms_alert` value in the POST /fall_event success response is
exactly the `sms_sent` value written to the CSV row, and to the MongoDB
document when one is written. -/
theorem response_matches_persisted_sms (env : Env) (now : Nat)
    (ts : String) (body : Payload) (h : env.csvAppendOk = true) :
    ((fall_event env now ts (some body)).2.bind
        LogOutcome.csvAppended).bind List.getLast?
      = (fall_event env now ts (some body)).1.sms_alert ∧
    (fall_event env now ts (some body)).2.bind LogOutcome.csvAppended
      ≠ Option.none ∧
    (∀ out doc, (fall_event env now ts (some body)).2 = some out →
      out.mongoInserted = some doc →
      some doc.sms_sent = (fall_event env now ts (some body)).1.sms_alert) := by
  rw [fall_event_ok env now ts body h,
    log_event_eq env now ts _ _ _ h]
  refine ⟨rfl, by simp, ?_⟩
  intro out doc h1 h2
  obtain rfl := (Option.some_inj.mp h1).symm
  simp only at h2
  cases hc : env.mongoAvailable && env.mongoInsertOk <;> simp [hc] at h2
  obtain rfl := h2.symm
  rfl

/-- Witness for C10 on a concrete real-alert report. -/
theorem response_matches_persisted_sms_witness :
    ((fall_event envAllOk 0 "t"
        (some { detect := some (.bool true),
                type := some (.str "real alert"),
                device_id := some (.str "esp-7") })).2.bind
        LogOutcome.csvAppended).bind List.getLast?
      = (fall_event envAllOk 0 "t"
        (some { detect := some (.bool true),
                type := some (.str "real alert"),
                device_id := some (.str "esp-7") })).1.sms_alert := by
  have h := response_matches_persisted_sms envAllOk 0 "t"
    { detect := some (.bool true), type := some (.str "real alert"),
      device_id := some (.str "esp-7") } rfl
  exact h.1

end FallDetection
